import Mathlib

/-!
Verification of the two template-emitting scripts of this repository:
`create_subagent.py` (subagent generator) and `generate_claude_md.py`
(instructions-file generator).  Python dictionaries are embedded as
association lists in insertion order (matching CPython dict semantics),
`str.format` as an explicit scanner over the format string, and the
filesystem effects of each script as a state-passing function over a
small filesystem model.
-/

/-- Values stored in the template dictionaries: strings and lists of strings
(the `tools` entries).  These are the only value shapes the source uses. -/
inductive PyVal where
  | str (s : String)
  | list (l : List PyVal)

/-- A Python dict with string keys, in insertion order. -/
abbrev PyDict := List (String × PyVal)

/-- Dictionary lookup (`d[k]` / `k in d`), first matching key. -/
def dictGet {α : Type} : List (String × α) → String → Option α
  | [], _ => none
  | (k1, v) :: rest, k => if k = k1 then some v else dictGet rest k

/-- The keys of a dict, in order (`d.keys()`). -/
def dictKeys {α : Type} (d : List (String × α)) : List String := d.map Prod.fst

/-- Python dict assignment `d[k] = v`: replaces the value in place when the
key exists (keeping its position), appends a new entry otherwise. -/
def pyDictSet : PyDict → String → PyVal → PyDict
  | [], k, v => [(k, v)]
  | (k1, v1) :: rest, k, v =>
    if k1 = k then (k, v) :: rest else (k1, v1) :: pyDictSet rest k v

/-- Entry `"researcher"` of `SUBAGENT_TEMPLATES` (create_subagent.py lines 21-40). -/
def researcherT : PyDict := [
  ("name", PyVal.str "{agent_name}"),
  ("description", PyVal.str "Research and documentation lookup agent with deep analysis"),
  ("instructions", PyVal.str "You are a research specialist. Your job is to:\n- Search through documentation efficiently\n- THINK DEEPLY about findings using extended thinking\n- Analyze patterns and implications\n- Synthesize insights with reasoning\n- Return concise, well-reasoned summaries\n\nIMPORTANT: For complex research, use extended thinking before responding:\n- Use \"think hard\" for multi-source analysis\n- Use \"ultrathink\" for architecture pattern evaluation\n- Your thinking happens in YOUR isolated context\n- Return only the analysis summary to the main agent\n\nThe main agent needs your INSIGHTS, not raw data."),
  ("tools", PyVal.list [PyVal.str "read", PyVal.str "search", PyVal.str "web_search"]),
  ("autonomy", PyVal.str "medium")]

/-- Entry `"tester"` of `SUBAGENT_TEMPLATES` (create_subagent.py lines 42-61). -/
def testerT : PyDict := [
  ("name", PyVal.str "{agent_name}"),
  ("description", PyVal.str "Testing and validation agent with analysis"),
  ("instructions", PyVal.str "You are a testing specialist. Your job is to:\n- Execute test suites\n- Validate code changes\n- ANALYZE test failures deeply\n- Identify root causes and patterns\n- Report clear, actionable results\n\nIMPORTANT: When test failures occur, use extended thinking:\n- Use \"think hard\" to analyze failure patterns\n- Consider root causes and related issues\n- Your analysis happens in YOUR isolated context\n- Return actionable findings to the main agent\n\nFocus on test execution and insightful result reporting."),
  ("tools", PyVal.list [PyVal.str "bash", PyVal.str "read", PyVal.str "write"]),
  ("autonomy", PyVal.str "high")]

/-- Entry `"analyzer"` of `SUBAGENT_TEMPLATES` (create_subagent.py lines 63-83). -/
def analyzerT : PyDict := [
  ("name", PyVal.str "{agent_name}"),
  ("description", PyVal.str "Code analysis and deep architectural insight agent"),
  ("instructions", PyVal.str "You are a code analysis specialist. Your job is to:\n- Analyze code structure and patterns\n- THINK DEEPLY about implications and tradeoffs\n- Identify potential issues and opportunities\n- Compute complexity metrics\n- Find dependencies and relationships\n\nIMPORTANT: Always use extended thinking for analysis:\n- Use \"think harder\" for architecture analysis\n- Use \"ultrathink\" for complex system evaluation\n- Consider multiple perspectives and edge cases\n- Your deep reasoning happens in YOUR isolated context\n- Return concise analysis with key insights to the main agent\n\nProvide actionable insights backed by reasoning."),
  ("tools", PyVal.list [PyVal.str "read", PyVal.str "search", PyVal.str "bash"]),
  ("autonomy", PyVal.str "medium")]

/-- Entry `"builder"` of `SUBAGENT_TEMPLATES` (create_subagent.py lines 85-97). -/
def builderT : PyDict := [
  ("name", PyVal.str "{agent_name}"),
  ("description", PyVal.str "Build and deployment agent"),
  ("instructions", PyVal.str "You are a build specialist. Your job is to:\n- Execute build processes\n- Run deployment scripts\n- Verify build outputs\n- Report build status and errors\n\nFocus on build execution and clear status reporting. Return success/failure and any errors."),
  ("tools", PyVal.list [PyVal.str "bash", PyVal.str "read"]),
  ("autonomy", PyVal.str "high")]

/-- Entry `"deep_analyzer"` of `SUBAGENT_TEMPLATES` (create_subagent.py lines 99-123). -/
def deep_analyzerT : PyDict := [
  ("name", PyVal.str "{agent_name}"),
  ("description", PyVal.str "Deep analysis agent with mandatory extended thinking"),
  ("instructions", PyVal.str "You are a deep analysis specialist. Your PRIMARY function is to think deeply before responding.\n\nMANDATORY WORKFLOW:\n1. Always start with \"ultrathink\" for complex analysis\n2. Consider multiple approaches and perspectives\n3. Evaluate tradeoffs, implications, and edge cases\n4. Reason through consequences and alternatives\n5. Synthesize findings into clear recommendations\n\nYour extended thinking happens in YOUR isolated context - this is your superpower.\nThe main agent only sees your conclusions, not your reasoning process.\n\nRETURN FORMAT:\n- Brief conclusion (2-3 sentences)\n- Key reasoning points (3-5 bullets)\n- Recommendation with rationale\n- Any important caveats\n\nThe main agent trusts your deep analysis. Give them confidence through thorough thinking."),
  ("tools", PyVal.list [PyVal.str "read", PyVal.str "search", PyVal.str "bash", PyVal.str "web_search"]),
  ("autonomy", PyVal.str "high")]

/-- The subagent template registry (create_subagent.py lines 20-124), in
source insertion order. -/
def SUBAGENT_TEMPLATES : List (String × PyDict) :=
  [("researcher", researcherT), ("tester", testerT), ("analyzer", analyzerT),
   ("builder", builderT), ("deep_analyzer", deep_analyzerT)]

/-- The fixed markdown format string (create_subagent.py lines 126-141). -/
def CLAUDE_CODE_FORMAT : String := "# {agent_name}\n\n{description}\n\n## Instructions\n\n{instructions}\n\n## Allowed Tools\n\n{tools}\n\n## Autonomy Level\n\n{autonomy_description}\n"

/-- The secondary autonomy lookup table (create_subagent.py lines 143-147). -/
def AUTONOMY_DESCRIPTIONS : List (String × String) := [
  ("low", "Ask for confirmation before taking actions. Provide recommendations."),
  ("medium", "Take standard actions autonomously. Ask for confirmation on significant changes."),
  ("high", "Execute tasks fully autonomously. Report results when complete.")]

/-- Entry `"general"` of `TEMPLATES` (generate_claude_md.py lines 22-60). -/
def generalTemplate : String := "# Claude Code Configuration\n\n## Project Overview\n<!-- Describe your project\x27s purpose, architecture, and key components -->\n\n## Context Management Strategy\n\n### When to Use Subagents\n- **Code searches**: Use subagents to search through large codebases\n- **File analysis**: Delegate multi-file analysis to subagents\n- **Research tasks**: Use subagents for documentation lookups\n- **Testing**: Isolate test runs in subagents\n\n### Context Commands\n- Use `/clear` between major tasks to reset context\n- Use `/compact` before complex multi-step work\n- Use `think` for planning complex changes\n\n## Development Workflow\n\n1. **Planning Phase**: Use \"think\" to analyze approach\n2. **Implementation**: Keep main context focused on current task\n3. **Verification**: Use subagents for testing and validation\n4. **Cleanup**: `/clear` before starting new features\n\n## Allowed Tools\n- File operations (read, write, edit)\n- Git operations (commit, branch, status)\n- Shell commands for building and testing\n- Subagent delegation\n\n## Code Style\n<!-- Add your project\x27s code style guidelines -->\n\n## Escalation Rules\n- Ask before making breaking changes\n- Confirm before deleting files\n- Verify test results before committing\n"

/-- Entry `"backend"` of `TEMPLATES` (generate_claude_md.py lines 62-104). -/
def backendTemplate : String := "# Claude Code Configuration - Backend Project\n\n## Project Overview\n<!-- Describe your API/service architecture -->\n\n## Context Management Strategy\n\n### When to Use Subagents\n- **Database queries**: Delegate schema exploration to subagents\n- **API documentation**: Use subagents to search through API docs\n- **Log analysis**: Isolate log file analysis in subagents\n- **Dependency analysis**: Check dependencies in isolated context\n- **Test runs**: Execute test suites in subagents\n\n### Context Commands\n- `/clear` between feature implementations\n- `/compact` before multi-endpoint refactoring\n- `think hard` for API design decisions\n\n## Development Workflow\n\n1. **Schema Review**: Subagent explores DB schema\n2. **Planning**: Main context designs endpoint logic\n3. **Implementation**: Focus on current endpoint\n4. **Testing**: Subagent runs integration tests\n5. **Commit**: After test verification\n\n## API Patterns\n<!-- Add your API conventions (REST, GraphQL, etc.) -->\n\n## Database\n<!-- Add your schema info or reference documentation -->\n\n## Testing Strategy\n- Unit tests required for business logic\n- Integration tests for API endpoints\n- Use subagents for test execution\n\n## Escalation Rules\n- Confirm before database migrations\n- Ask before changing API contracts\n- Verify backward compatibility\n"

/-- Entry `"frontend"` of `TEMPLATES` (generate_claude_md.py lines 106-151). -/
def frontendTemplate : String := "# Claude Code Configuration - Frontend Project\n\n## Project Overview\n<!-- Describe your frontend architecture (React, Vue, Angular, etc.) -->\n\n## Context Management Strategy\n\n### When to Use Subagents\n- **Component searches**: Find similar components across codebase\n- **Style analysis**: Isolate CSS/styling investigations\n- **Bundle analysis**: Check dependencies and imports\n- **Test runs**: Execute component tests in subagents\n- **Build verification**: Run builds in isolated context\n\n### Context Commands\n- `/clear` between component implementations\n- `/compact` before large refactoring\n- `think` for component architecture decisions\n\n## Development Workflow\n\n1. **Component Planning**: Design component structure\n2. **Implementation**: Focus on current component\n3. **Styling**: Apply consistent design system\n4. **Testing**: Subagent runs component tests\n5. **Build Check**: Subagent verifies build\n\n## Component Patterns\n<!-- Add your component conventions -->\n\n## Styling Approach\n<!-- CSS-in-JS, Tailwind, CSS Modules, etc. -->\n\n## State Management\n<!-- Redux, Context API, Zustand, etc. -->\n\n## Testing Strategy\n- Component tests required\n- Use Testing Library best practices\n- Subagents handle test execution\n\n## Escalation Rules\n- Confirm before major architectural changes\n- Ask before adding new dependencies\n- Verify accessibility requirements\n"

/-- Entry `"fullstack"` of `TEMPLATES` (generate_claude_md.py lines 153-198). -/
def fullstackTemplate : String := "# Claude Code Configuration - Full-Stack Project\n\n## Project Overview\n<!-- Describe your full-stack architecture -->\n\n## Context Management Strategy\n\n### When to Use Subagents\n- **Frontend searches**: Delegate component searches\n- **Backend analysis**: Isolate API endpoint analysis\n- **Database operations**: Schema exploration in subagents\n- **Build processes**: Run builds in isolated contexts\n- **Test suites**: Execute frontend and backend tests separately\n\n### Context Commands\n- `/clear` between frontend/backend context switches\n- `/compact` before cross-stack refactoring\n- `think hard` for architectural decisions\n\n## Development Workflow\n\n1. **Planning**: Design full-stack feature flow\n2. **Backend First**: Implement API endpoints\n3. **Frontend**: Build UI components\n4. **Integration**: Connect frontend to backend\n5. **Testing**: Subagents test both layers\n\n## Stack\n- **Frontend**: <!-- React, Vue, etc. -->\n- **Backend**: <!-- Node.js, Python, etc. -->\n- **Database**: <!-- PostgreSQL, MongoDB, etc. -->\n\n## API Patterns\n<!-- REST, GraphQL, tRPC, etc. -->\n\n## Testing Strategy\n- Unit tests for business logic\n- Integration tests for APIs\n- Component tests for UI\n- E2E tests for critical flows\n\n## Escalation Rules\n- Confirm before database migrations\n- Ask before API contract changes\n- Verify cross-stack impacts\n"

/-- Entry `"data"` of `TEMPLATES` (generate_claude_md.py lines 200-245). -/
def dataTemplate : String := "# Claude Code Configuration - Data Science Project\n\n## Project Overview\n<!-- Describe your data pipeline and analysis goals -->\n\n## Context Management Strategy\n\n### When to Use Subagents\n- **Data exploration**: Delegate large dataset analysis\n- **Model searches**: Find similar models in codebase\n- **Documentation**: Research library documentation\n- **Experiment runs**: Execute training in subagents\n- **Result analysis**: Isolate metrics computation\n\n### Context Commands\n- `/clear` between experiments\n- `/compact` before model refactoring\n- `think harder` for model architecture decisions\n\n## Development Workflow\n\n1. **Data Exploration**: Subagent analyzes dataset\n2. **Feature Engineering**: Design features in main context\n3. **Model Development**: Implement and iterate\n4. **Evaluation**: Subagent runs evaluation metrics\n5. **Documentation**: Record experiment results\n\n## Data Pipeline\n<!-- Add your data sources and processing steps -->\n\n## Model Architecture\n<!-- Add your model details -->\n\n## Experiment Tracking\n<!-- MLflow, Weights & Biases, etc. -->\n\n## Testing Strategy\n- Unit tests for data processing\n- Validation tests for model outputs\n- Subagents handle long-running tests\n\n## Escalation Rules\n- Confirm before large dataset operations\n- Ask before changing data schemas\n- Verify model performance before deployment\n"

/-- Entry `"library"` of `TEMPLATES` (generate_claude_md.py lines 247-295). -/
def libraryTemplate : String := "# Claude Code Configuration - Library Project\n\n## Project Overview\n<!-- Describe your library\x27s purpose and API -->\n\n## Context Management Strategy\n\n### When to Use Subagents\n- **API searches**: Find similar functions across codebase\n- **Documentation**: Research upstream dependencies\n- **Example analysis**: Review usage examples\n- **Test execution**: Run test suites in subagents\n- **Build verification**: Check builds across versions\n\n### Context Commands\n- `/clear` between feature implementations\n- `/compact` before API refactoring\n- `think` for public API design\n\n## Development Workflow\n\n1. **API Design**: Plan function signatures\n2. **Implementation**: Implement core logic\n3. **Documentation**: Write docstrings and examples\n4. **Testing**: Comprehensive test coverage\n5. **Verification**: Subagent runs full test suite\n\n## API Principles\n- Maintain backward compatibility\n- Clear, consistent naming\n- Comprehensive documentation\n- Type hints/annotations\n\n## Testing Strategy\n- Unit tests for all public APIs\n- Integration tests for workflows\n- Docstring examples as doctests\n- Subagents handle test execution\n\n## Documentation\n- Docstrings required for all public APIs\n- Usage examples in docs/\n- Changelog maintenance\n\n## Escalation Rules\n- Confirm before breaking API changes\n- Ask before adding dependencies\n- Verify semantic versioning\n"

/-- The project-template registry of generate_claude_md.py (lines 21-296), in
source insertion order. -/
def TEMPLATES : List (String × String) :=
  [("general", generalTemplate), ("backend", backendTemplate),
   ("frontend", frontendTemplate), ("fullstack", fullstackTemplate),
   ("data", dataTemplate), ("library", libraryTemplate)]

/-- One parsed piece of a format string: a literal run of characters or a
replacement field name. -/
inductive Seg where
  | lit (s : List Char)
  | field (f : List Char)

/-- Prepend a literal character to a segment list, merging with a leading
literal run. -/
def consLit (c : Char) : List Seg → List Seg
  | Seg.lit s :: rest => Seg.lit (c :: s) :: rest
  | segs => Seg.lit [c] :: segs

/-- Scan the characters of a replacement field up to the closing brace;
returns the field name and the remaining input. -/
def takeField : List Char → Option (List Char × List Char)
  | [] => none
  | c :: rest =>
    if c = '}' then some ([], rest)
    else match takeField rest with
      | none => none
      | some (f, r) => some (c :: f, r)

/-- Fuel-indexed scanner for Python `str.format` format strings with simple
named fields, doubled-brace escapes, and errors on stray braces.  Each step
consumes at least one character, so fuel equal to the input length never
runs out. -/
def parseFmtAux : Nat → List Char → Except String (List Seg)
  | _, [] => Except.ok []
  | 0, _ :: _ => Except.error "format scan fuel exhausted"
  | fuel + 1, c1 :: rest =>
    if c1 = '{' then
      match rest with
      | [] => Except.error "Single brace encountered in format string"
      | c2 :: rest2 =>
        if c2 = '{' then (parseFmtAux fuel rest2).map (consLit '{')
        else
          match takeField (c2 :: rest2) with
          | none => Except.error "expected closing brace before end of string"
          | some (f, r) => (parseFmtAux fuel r).map (fun segs => Seg.field f :: segs)
    else if c1 = '}' then
      match rest with
      | [] => Except.error "Single brace encountered in format string"
      | c2 :: rest2 =>
        if c2 = '}' then (parseFmtAux fuel rest2).map (consLit '}')
        else Except.error "Single brace encountered in format string"
    else (parseFmtAux fuel rest).map (consLit c1)

/-- Parse a format string into segments. -/
def parseFmt (l : List Char) : Except String (List Seg) := parseFmtAux l.length l

/-- Substitute the named fields of a parsed format string.  Substitution
values are spliced in verbatim and never rescanned, exactly as in Python
`str.format`; a field with no matching keyword raises `KeyError`. -/
def renderSegs (subs : List (String × String)) : List Seg → Except String String
  | [] => Except.ok ""
  | Seg.lit s :: rest => (renderSegs subs rest).map (fun t => String.mk s ++ t)
  | Seg.field f :: rest =>
    match dictGet subs (String.mk f) with
    | none => Except.error ("KeyError: " ++ String.mk f)
    | some v => (renderSegs subs rest).map (fun t => v ++ t)

/-- `fmt.format(**subs)` for the format strings this program uses. -/
def pyFormat (fmt : String) (subs : List (String × String)) : Except String String :=
  (parseFmt fmt.toList).bind (fun segs => renderSegs subs segs)

/-- `template[k]`: lookup raising `KeyError` when the key is absent. -/
def getKey (d : PyDict) (k : String) : Except String PyVal :=
  match dictGet d k with
  | none => Except.error ("KeyError: " ++ k)
  | some v => Except.ok v

/-- Extract a string value.  In every registry record the fields read here
are strings, so the error branch is unreachable on this program's data. -/
def asStr : PyVal → Except String String
  | PyVal.str s => Except.ok s
  | PyVal.list _ => Except.error "TypeError: expected a string value"

/-- Extract a list of strings.  In every registry record `tools` is a list
of strings, so the error branches are unreachable on this program's data. -/
def asStrList : PyVal → Except String (List String)
  | PyVal.str _ => Except.error "TypeError: expected a list value"
  | PyVal.list l => l.mapM asStr

/-- The markdown rendering step of `create_subagent` (lines 172-181):
builds the tools bullet list, resolves the autonomy description, and
formats `CLAUDE_CODE_FORMAT` with the template fields. -/
def renderMd (agent_name : String) (template : PyDict) : Except String String := do
  let toolsV ← getKey template "tools"
  let tools ← asStrList toolsV
  let tools_list := String.intercalate "\n" (tools.map (fun tool => "- " ++ tool))
  let autonomyV ← getKey template "autonomy"
  let autonomyKey ← asStr autonomyV
  let autonomy_desc ←
    match dictGet AUTONOMY_DESCRIPTIONS autonomyKey with
    | none => Except.error ("KeyError: " ++ autonomyKey)
    | some s => Except.ok s
  let descV ← getKey template "description"
  let desc ← asStr descV
  let instrV ← getKey template "instructions"
  let instr ← asStr instrV
  pyFormat CLAUDE_CODE_FORMAT
    [("agent_name", agent_name), ("description", desc), ("instructions", instr),
     ("tools", tools_list), ("autonomy_description", autonomy_desc)]

/-- Content of a file in the filesystem model: plain text, or the
structured value a JSON file holds once parsed (`json.dumps` followed by a
JSON parse is the identity on these dictionaries, so the artifact written
by `json.dumps(template, indent=2)` is modelled by its parsed form). -/
inductive FileContent where
  | text (s : String)
  | jsonData (d : PyDict)

/-- A filesystem: the set of existing directories and a map from file
paths to contents, both keyed by normalized relative paths. -/
structure FS where
  dirs : List String
  files : List (String × FileContent)

/-- The empty filesystem. -/
def fsEmpty : FS := { dirs := [], files := [] }

/-- Split a character list on the path separator. -/
def splitSlash : List Char → List (List Char)
  | [] => [[]]
  | c :: rest =>
    if c = '/' then [] :: splitSlash rest
    else
      match splitSlash rest with
      | [] => [[c]]
      | seg :: segs => (c :: seg) :: segs

/-- Path segments of a relative path: split on the separator, dropping
empty segments and single dots, as `pathlib` normalization does. -/
def pathSegs (p : String) : List String :=
  ((splitSlash p.data).map String.mk).filter (fun s => !(s == "" || s == "."))

/-- Normalized form of a relative path. -/
def normPath (p : String) : String := String.intercalate "/" (pathSegs p)

/-- All nonempty prefixes of a segment list. -/
def segPrefixes : List String → List (List String)
  | [] => []
  | s :: rest => [s] :: (segPrefixes rest).map (fun l => s :: l)

/-- Every ancestor directory of `p`, innermost last. -/
def dirPrefixes (p : String) : List String :=
  (segPrefixes (pathSegs p)).map (String.intercalate "/")

/-- Add a directory if missing (`exist_ok=True`). -/
def addDir (l : List String) (d : String) : List String :=
  if d ∈ l then l else l ++ [d]

/-- Add several directories in order. -/
def addDirs (l : List String) : List String → List String
  | [] => l
  | d :: rest => addDirs (addDir l d) rest

/-- `Path(p).mkdir(parents=True, exist_ok=True)`: create every missing
ancestor of `p`; directories that already exist are left alone and raise
no error. -/
def mkdirParents (fs : FS) (p : String) : FS :=
  { fs with dirs := addDirs fs.dirs (dirPrefixes p) }

/-- Update a file map: overwrite in place when the path exists, append
otherwise. -/
def setFile : List (String × FileContent) → String → FileContent → List (String × FileContent)
  | [], p, c => [(p, c)]
  | (k, v) :: rest, p, c =>
    if k = p then (p, c) :: rest else (k, v) :: setFile rest p c

/-- `Path(p).write_text(c)`: truncating overwrite, no confirmation or
backup. -/
def writeText (fs : FS) (p : String) (c : FileContent) : FS :=
  { fs with files := setFile fs.files (normPath p) c }

/-- Content of the file at `p`, if present. -/
def fileGet (fs : FS) (p : String) : Option FileContent :=
  dictGet fs.files (normPath p)

/-- `pathlib` path joining for relative paths (normalization happens at the
filesystem operations). -/
def pathJoin (a b : String) : String := a ++ "/" ++ b

/-- `Path(p).parent` for relative paths. -/
def parentDir (p : String) : String :=
  match (pathSegs p).dropLast with
  | [] => "."
  | seg :: rest => String.intercalate "/" (seg :: rest)

/-- The error message of `create_subagent` for an unknown type
(lines 153-156). -/
def subagentErrMsg (agent_type : String) : String :=
  "Unknown agent type: " ++ agent_type ++ ". Choose from: " ++
    String.intercalate ", " (dictKeys SUBAGENT_TEMPLATES)

/-- The error message of `generate_claude_md` for an unknown type
(line 302). -/
def claudeMdErrMsg (project_type : String) : String :=
  "Unknown project type: " ++ project_type ++ ". Choose from: " ++
    String.intercalate ", " (dictKeys TEMPLATES)

/-- The `.claude/agents` directory under the output directory (lines
162-167). -/
def agentsDirOf (output_dir : String) : String :=
  pathJoin (pathJoin output_dir ".claude") "agents"

/-- Path of the markdown artifact (line 170). -/
def mdPathOf (agent_name output_dir : String) : String :=
  pathJoin (agentsDirOf output_dir) (agent_name ++ ".md")

/-- Path of the JSON artifact (line 186). -/
def jsonPathOf (agent_name output_dir : String) : String :=
  pathJoin (agentsDirOf output_dir) (agent_name ++ ".json")

/-- `create_subagent(agent_name, agent_type, output_dir)` (create_subagent.py
lines 150-199) as a state-passing function over the filesystem model:
validate the type against the registry (raising `ValueError` before any
filesystem mutation), copy the record and override its name, create the
output directories, write the markdown artifact, then write the JSON
artifact.  The status messages printed to stdout are not modelled. -/
def create_subagent (fs : FS) (agent_name agent_type output_dir : String) :
    Except String Unit × FS :=
  match dictGet SUBAGENT_TEMPLATES agent_type with
  | none => (Except.error (subagentErrMsg agent_type), fs)
  | some tmpl =>
    let template := pyDictSet tmpl "name" (PyVal.str agent_name)
    let fs1 := mkdirParents fs output_dir
    let fs2 := mkdirParents fs1 (agentsDirOf output_dir)
    match renderMd agent_name template with
    | Except.error e => (Except.error e, fs2)
    | Except.ok content =>
      let fs3 := writeText fs2 (mdPathOf agent_name output_dir) (FileContent.text content)
      let fs4 := writeText fs3 (jsonPathOf agent_name output_dir) (FileContent.jsonData template)
      (Except.ok (), fs4)

/-- `generate_claude_md(project_type, output_path)` (generate_claude_md.py
lines 299-317) over the filesystem model: validate the type (raising
`ValueError` before any filesystem mutation), create the parent directory,
and write the selected template text verbatim. -/
def generate_claude_md (fs : FS) (project_type output_path : String) :
    Except String Unit × FS :=
  match dictGet TEMPLATES project_type with
  | none => (Except.error (claudeMdErrMsg project_type), fs)
  | some content =>
    let fs1 := mkdirParents fs (parentDir output_path)
    (Except.ok (), writeText fs1 output_path (FileContent.text content))

/-- A heap of Python dictionary objects; references are indices.  Used to
model the aliasing behaviour of `SUBAGENT_TEMPLATES[agent_type].copy()`
followed by in-place assignment. -/
structure Store where
  cells : List PyDict

/-- Dereference a dictionary object. -/
def storeGet (s : Store) (r : Nat) : PyDict := s.cells.getD r []

/-- Allocate a fresh dictionary object (`d.copy()` allocates). -/
def storeAlloc (s : Store) (d : PyDict) : Store × Nat :=
  ({ cells := s.cells ++ [d] }, s.cells.length)

/-- In-place `obj[k] = v` through a reference. -/
def storeSetKey (s : Store) (r : Nat) (k : String) (v : PyVal) : Store :=
  { cells := s.cells.set r (pyDictSet (storeGet s r) k v) }

/-- The mutation core of `create_subagent` (lines 152-159) over the object
heap: look the type up in a registry of references, copy the record into a
fresh object, and assign the supplied name on the copy only. -/
def create_subagent_refs (s : Store) (registry : List (String × Nat))
    (agent_name agent_type : String) : Store × Option Nat :=
  match dictGet registry agent_type with
  | none => (s, none)
  | some r =>
    let copied := storeAlloc s (storeGet s r)
    let s2 := storeSetKey copied.1 copied.2 "name" (PyVal.str agent_name)
    (s2, some copied.2)

/-- The markdown text `CLAUDE_CODE_FORMAT.format(...)` produces: each
substitution value spliced verbatim between the literal pieces of the
format string. -/
def mdContentOf (name desc instr tls adesc : String) : String :=
  "# " ++ (name ++ ("\n\n" ++ (desc ++ ("\n\n## Instructions\n\n" ++ (instr ++ ("\n\n## Allowed Tools\n\n" ++ (tls ++ ("\n\n## Autonomy Level\n\n" ++ (adesc ++ "\n")))))))))

/-- The string held by an optional dictionary value (used to read the
string fields of concrete registry records). -/
def strOf (v : Option PyVal) : String :=
  match v with
  | some (PyVal.str s) => s
  | _ => ""

/-- The string list held by an optional dictionary value (used to read the
`tools` field of concrete registry records). -/
def strListOf (v : Option PyVal) : List String :=
  match v with
  | some (PyVal.list l) => l.map (fun x => match x with | PyVal.str s => s | _ => "")
  | _ => []

/-- The tools bullet list of a template record, as `create_subagent`
renders it (line 172). -/
def toolsLinesOf (d : PyDict) : String :=
  String.intercalate "\n" ((strListOf (dictGet d "tools")).map (fun t => "- " ++ t))

/-- The autonomy description a template record resolves to (line 173). -/
def autonomyDescOf (d : PyDict) : String :=
  (dictGet AUTONOMY_DESCRIPTIONS (strOf (dictGet d "autonomy"))).getD ""

/-- The full markdown artifact text for an agent name and a template
record. -/
def mdOfTemplate (name : String) (d : PyDict) : String :=
  mdContentOf name (strOf (dictGet d "description")) (strOf (dictGet d "instructions"))
    (toolsLinesOf d) (autonomyDescOf d)

/-- Whether the first character list is an initial segment of the second. -/
def startsWithL : List Char → List Char → Bool
  | [], _ => true
  | _ :: _, [] => false
  | a :: as, b :: bs => a = b && startsWithL as bs

/-- Whether `sub` occurs contiguously inside the second list. -/
def hasSubL (sub : List Char) : List Char → Bool
  | [] => startsWithL sub []
  | c :: rest => startsWithL sub (c :: rest) || hasSubL sub rest

/-- Whether `sub` occurs as a substring of `s`. -/
def strHasSub (s sub : String) : Bool := hasSubL sub.data s.data

/-- A concrete heap holding the five registry records as objects. -/
def store0 : Store :=
  { cells := [researcherT, testerT, analyzerT, builderT, deep_analyzerT] }

/-- The registry of references into `store0`, mirroring
`SUBAGENT_TEMPLATES`. -/
def registry0 : List (String × Nat) :=
  [("researcher", 0), ("tester", 1), ("analyzer", 2), ("builder", 3), ("deep_analyzer", 4)]

theorem subagent_lookup_cases {t : String} {d : PyDict}
    (h : dictGet SUBAGENT_TEMPLATES t = some d) :
    (t = "researcher" ∧ d = researcherT) ∨ (t = "tester" ∧ d = testerT) ∨
    (t = "analyzer" ∧ d = analyzerT) ∨ (t = "builder" ∧ d = builderT) ∨
    (t = "deep_analyzer" ∧ d = deep_analyzerT) := by
  simp only [SUBAGENT_TEMPLATES, dictGet] at h
  split_ifs at h with h1 h2 h3 h4 h5
  · exact Or.inl ⟨h1, (Option.some.inj h).symm⟩
  · exact Or.inr (Or.inl ⟨h2, (Option.some.inj h).symm⟩)
  · exact Or.inr (Or.inr (Or.inl ⟨h3, (Option.some.inj h).symm⟩))
  · exact Or.inr (Or.inr (Or.inr (Or.inl ⟨h4, (Option.some.inj h).symm⟩)))
  · exact Or.inr (Or.inr (Or.inr (Or.inr ⟨h5, (Option.some.inj h).symm⟩)))

set_option maxRecDepth 20000 in
theorem create_subagent_eq {t : String} {d : PyDict}
    (h : dictGet SUBAGENT_TEMPLATES t = some d) (fs : FS) (name out : String) :
    create_subagent fs name t out =
      (Except.ok (),
       writeText
         (writeText (mkdirParents (mkdirParents fs out) (agentsDirOf out))
           (mdPathOf name out) (FileContent.text (mdOfTemplate name d)))
         (jsonPathOf name out)
         (FileContent.jsonData (pyDictSet d "name" (PyVal.str name)))) := by
  rcases subagent_lookup_cases h with ⟨ht, hd⟩ | ⟨ht, hd⟩ | ⟨ht, hd⟩ | ⟨ht, hd⟩ | ⟨ht, hd⟩ <;>
    subst ht <;> subst hd <;> rfl

theorem dictGet_setFile (fl : List (String × FileContent)) (p q : String) (c : FileContent) :
    dictGet (setFile fl p c) q = if q = p then some c else dictGet fl q := by
  induction fl with
  | nil => simp [setFile, dictGet]
  | cons kv rest ih =>
    obtain ⟨k, v⟩ := kv
    by_cases hkp : k = p
    · subst hkp
      by_cases hqp : q = k
      · simp [setFile, dictGet, hqp]
      · simp [setFile, dictGet, hqp]
    · simp only [setFile, if_neg hkp, dictGet]
      by_cases hqk : q = k
      · have hqp : ¬ q = p := by rw [hqk]; exact hkp
        simp [hqk, hqp, hkp]
      · simp [hqk, ih]

theorem fileGet_writeText (fs : FS) (p q : String) (c : FileContent) :
    fileGet (writeText fs p c) q =
      if normPath q = normPath p then some c else fileGet fs q := by
  simp [fileGet, writeText, dictGet_setFile]

theorem setFile_absorb {fl : List (String × FileContent)} {p : String} {c : FileContent}
    (h : dictGet fl p = some c) : setFile fl p c = fl := by
  induction fl with
  | nil => simp [dictGet] at h
  | cons kv rest ih =>
    obtain ⟨k, v⟩ := kv
    by_cases hpk : p = k
    · subst hpk
      simp only [dictGet, if_pos rfl] at h
      simp [setFile, Option.some.inj h]
    · simp only [dictGet, if_neg hpk] at h
      have hkp : ¬ k = p := fun h2 => hpk h2.symm
      simp [setFile, if_neg hkp, ih h]

theorem writeText_absorb {fs : FS} {p : String} {c : FileContent}
    (h : fileGet fs p = some c) : writeText fs p c = fs := by
  simp only [writeText, setFile_absorb h]

theorem setFile_setFile (fl : List (String × FileContent)) (p : String) (c c2 : FileContent) :
    setFile (setFile fl p c) p c2 = setFile fl p c2 := by
  induction fl with
  | nil => simp [setFile]
  | cons kv rest ih =>
    obtain ⟨k, v⟩ := kv
    by_cases hkp : k = p
    · subst hkp
      simp [setFile]
    · simp [setFile, hkp, ih]

theorem writeText_writeText (fs : FS) (p : String) (c c2 : FileContent) :
    writeText (writeText fs p c) p c2 = writeText fs p c2 := by
  simp [writeText, setFile_setFile]

theorem writeText_writeText_same {p q : String} (h : normPath p = normPath q)
    (fs : FS) (c c2 : FileContent) :
    writeText (writeText fs p c) q c2 = writeText fs q c2 := by
  simp [writeText, h, setFile_setFile]

theorem mem_addDir_left {x : String} {l : List String} (d : String) (h : x ∈ l) :
    x ∈ addDir l d := by
  unfold addDir
  split
  · exact h
  · exact List.mem_append_left _ h

theorem mem_addDir_self (l : List String) (d : String) : d ∈ addDir l d := by
  unfold addDir
  split
  · assumption
  · exact List.mem_append_right _ (by simp)

theorem mem_addDirs_left {x : String} {l : List String} (ds : List String) (h : x ∈ l) :
    x ∈ addDirs l ds := by
  induction ds generalizing l with
  | nil => exact h
  | cons d rest ih => exact ih (mem_addDir_left d h)

theorem mem_addDirs_right {x : String} {ds : List String} (l : List String) (h : x ∈ ds) :
    x ∈ addDirs l ds := by
  induction ds generalizing l with
  | nil => simp at h
  | cons d rest ih =>
    rcases List.mem_cons.mp h with h1 | h2
    · subst h1
      exact mem_addDirs_left rest (mem_addDir_self l x)
    · exact ih (addDir l d) h2

theorem addDir_of_mem {l : List String} {d : String} (h : d ∈ l) : addDir l d = l := by
  simp [addDir, h]

theorem addDirs_of_subset {l ds : List String} (h : ∀ d ∈ ds, d ∈ l) : addDirs l ds = l := by
  induction ds with
  | nil => rfl
  | cons d rest ih =>
    have hd : d ∈ l := h d (by simp)
    simp only [addDirs, addDir_of_mem hd]
    exact ih (fun x hx => h x (by simp [hx]))

theorem mkdirParents_of_mem {fs : FS} {p : String}
    (h : ∀ d ∈ dirPrefixes p, d ∈ fs.dirs) : mkdirParents fs p = fs := by
  simp [mkdirParents, addDirs_of_subset h]

theorem mem_dirs_mkdirParents {fs : FS} {p : String} {d : String}
    (h : d ∈ dirPrefixes p) : d ∈ (mkdirParents fs p).dirs :=
  mem_addDirs_right fs.dirs h

theorem dirs_writeText (fs : FS) (p : String) (c : FileContent) :
    (writeText fs p c).dirs = fs.dirs := rfl

theorem files_mkdirParents (fs : FS) (p : String) :
    (mkdirParents fs p).files = fs.files := rfl

theorem dictGet_pyDictSet_self (d : PyDict) (k : String) (v : PyVal) :
    dictGet (pyDictSet d k v) k = some v := by
  induction d with
  | nil => simp [pyDictSet, dictGet]
  | cons kv rest ih =>
    obtain ⟨k1, v1⟩ := kv
    by_cases h : k1 = k
    · subst h
      simp [pyDictSet, dictGet]
    · have hke : ¬ k = k1 := fun h2 => h h2.symm
      simp [pyDictSet, if_neg h, dictGet, if_neg hke, ih]

theorem dictGet_pyDictSet_ne (d : PyDict) {k q : String} (v : PyVal) (hq : q ≠ k) :
    dictGet (pyDictSet d k v) q = dictGet d q := by
  induction d with
  | nil => simp [pyDictSet, dictGet, hq]
  | cons kv rest ih =>
    obtain ⟨k1, v1⟩ := kv
    by_cases h : k1 = k
    · subst h
      simp [pyDictSet, dictGet, hq, fun h2 : q = k1 => hq h2]
    · simp only [pyDictSet, if_neg h, dictGet]
      by_cases hqk1 : q = k1
      · simp [hqk1]
      · simp [hqk1, ih]

theorem hasSubL_append_left {sub l2 : List Char} (l1 : List Char)
    (h : hasSubL sub l2 = true) : hasSubL sub (l1 ++ l2) = true := by
  induction l1 with
  | nil => exact h
  | cons c rest ih =>
    simp only [List.cons_append, hasSubL, Bool.or_eq_true]
    exact Or.inr ih

theorem strHasSub_append (a b : String) (sub : String)
    (h : hasSubL sub.data b.data = true) : strHasSub (a ++ b) sub = true := by
  simp only [strHasSub, String.data_append]
  exact hasSubL_append_left a.data h

theorem storeGet_create_subagent_refs (s : Store) (registry : List (String × Nat))
    (name t : String) {r : Nat} (hr : r < s.cells.length) :
    storeGet (create_subagent_refs s registry name t).1 r = storeGet s r := by
  unfold create_subagent_refs
  match hm : dictGet registry t with
  | none => rfl
  | some r0 =>
    simp only [storeAlloc, storeSetKey, storeGet]
    have hne : s.cells.length ≠ r := Nat.ne_of_gt hr
    simp only [List.getD_eq_getElem?_getD, List.getElem?_set_ne hne, List.getElem?_append]
    simp [hr]

theorem wt_wt_idem (X : FS) (m j : String) (cm cj : FileContent) :
    writeText (writeText (writeText (writeText X m cm) j cj) m cm) j cj =
      writeText (writeText X m cm) j cj := by
  by_cases hmj : normPath m = normPath j
  · rw [writeText_writeText_same hmj.symm, writeText_writeText]
  · have g1 : fileGet (writeText (writeText X m cm) j cj) m = some cm := by
      simp [fileGet_writeText, hmj]
    rw [writeText_absorb g1]
    have g2 : fileGet (writeText (writeText X m cm) j cj) j = some cj := by
      simp [fileGet_writeText]
    rw [writeText_absorb g2]

theorem fs_idem_core (X : FS) (out m j : String) (cm cj : FileContent)
    (h1 : ∀ q ∈ dirPrefixes out, q ∈ X.dirs)
    (h2 : ∀ q ∈ dirPrefixes (agentsDirOf out), q ∈ X.dirs) :
    writeText (writeText (mkdirParents (mkdirParents
        (writeText (writeText X m cm) j cj) out) (agentsDirOf out)) m cm) j cj =
      writeText (writeText X m cm) j cj := by
  have hm1 : mkdirParents (writeText (writeText X m cm) j cj) out =
      writeText (writeText X m cm) j cj :=
    mkdirParents_of_mem (fun q hq => h1 q hq)
  rw [hm1]
  have hm2 : mkdirParents (writeText (writeText X m cm) j cj) (agentsDirOf out) =
      writeText (writeText X m cm) j cj :=
    mkdirParents_of_mem (fun q hq => h2 q hq)
  rw [hm2]
  exact wt_wt_idem X m j cm cj

/-- C1: for every type key absent from the respective registry, invoking
either script fails with a `ValueError` raised before any directory is
created or file is written (the filesystem state is returned unchanged),
and the error message contains every valid type key of that registry. -/
theorem claim1 (fs : FS) (name t out p pout : String) :
    (dictGet SUBAGENT_TEMPLATES t = none →
      create_subagent fs name t out = (Except.error (subagentErrMsg t), fs) ∧
      ∀ k ∈ dictKeys SUBAGENT_TEMPLATES, strHasSub (subagentErrMsg t) k = true) ∧
    (dictGet TEMPLATES p = none →
      generate_claude_md fs p pout = (Except.error (claudeMdErrMsg p), fs) ∧
      ∀ k ∈ dictKeys TEMPLATES, strHasSub (claudeMdErrMsg p) k = true) := by
  constructor
  · intro h
    refine ⟨by unfold create_subagent; rw [h], ?_⟩
    intro k hk
    have hsub : hasSubL k.data
        (String.intercalate ", " (dictKeys SUBAGENT_TEMPLATES)).data = true := by
      simp only [dictKeys, SUBAGENT_TEMPLATES, List.map] at hk
      fin_cases hk <;> decide
    unfold subagentErrMsg
    exact strHasSub_append _ _ k hsub
  · intro h
    refine ⟨by unfold generate_claude_md; rw [h], ?_⟩
    intro k hk
    have hsub : hasSubL k.data
        (String.intercalate ", " (dictKeys TEMPLATES)).data = true := by
      simp only [dictKeys, TEMPLATES, List.map] at hk
      fin_cases hk <;> decide
    unfold claudeMdErrMsg
    exact strHasSub_append _ _ k hsub

/-- Witness for C1 at the invalid key "nonexistent" on both scripts. -/
theorem claim1_witness :
    create_subagent fsEmpty "helper" "nonexistent" "." =
      (Except.error (subagentErrMsg "nonexistent"), fsEmpty) ∧
    strHasSub (subagentErrMsg "nonexistent") "deep_analyzer" = true ∧
    generate_claude_md fsEmpty "nonexistent" "./CLAUDE.md" =
      (Except.error (claudeMdErrMsg "nonexistent"), fsEmpty) ∧
    strHasSub (claudeMdErrMsg "nonexistent") "fullstack" = true :=
  ⟨((claim1 fsEmpty "helper" "nonexistent" "." "nonexistent" "./CLAUDE.md").1 rfl).1,
   ((claim1 fsEmpty "helper" "nonexistent" "." "nonexistent" "./CLAUDE.md").1 rfl).2
     "deep_analyzer" (by simp [dictKeys, SUBAGENT_TEMPLATES]),
   ((claim1 fsEmpty "helper" "nonexistent" "." "nonexistent" "./CLAUDE.md").2 rfl).1,
   ((claim1 fsEmpty "helper" "nonexistent" "." "nonexistent" "./CLAUDE.md").2 rfl).2
     "fullstack" (by simp [dictKeys, TEMPLATES])⟩

/-- C2: for every valid agent type and agent name, the JSON artifact
written by `create_subagent`, read back as structured data, has a `name`
field equal to the supplied agent name and a `tools` entry identical to
the registry record of the selected type. -/
theorem claim2 {t : String} {d : PyDict} (h : dictGet SUBAGENT_TEMPLATES t = some d)
    (fs : FS) (name out : String) :
    fileGet (create_subagent fs name t out).2 (jsonPathOf name out) =
      some (FileContent.jsonData (pyDictSet d "name" (PyVal.str name))) ∧
    dictGet (pyDictSet d "name" (PyVal.str name)) "name" = some (PyVal.str name) ∧
    dictGet (pyDictSet d "name" (PyVal.str name)) "tools" = dictGet d "tools" := by
  refine ⟨?_, dictGet_pyDictSet_self d "name" (PyVal.str name),
    dictGet_pyDictSet_ne d (PyVal.str name) (by decide)⟩
  rw [create_subagent_eq h]
  simp [fileGet_writeText]

/-- Witness for C2 at agent "doc-searcher" of type "researcher". -/
theorem claim2_witness :
    fileGet (create_subagent fsEmpty "doc-searcher" "researcher" ".").2
        (jsonPathOf "doc-searcher" ".") =
      some (FileContent.jsonData (pyDictSet researcherT "name" (PyVal.str "doc-searcher"))) ∧
    dictGet (pyDictSet researcherT "name" (PyVal.str "doc-searcher")) "name" =
      some (PyVal.str "doc-searcher") ∧
    dictGet (pyDictSet researcherT "name" (PyVal.str "doc-searcher")) "tools" =
      dictGet researcherT "tools" :=
  claim2 (show dictGet SUBAGENT_TEMPLATES "researcher" = some researcherT from rfl)
    fsEmpty "doc-searcher" "."

/-- C3: running `create_subagent` twice with identical agent name and type
reproduces the filesystem state byte for byte (the second run is the
identity on the state the first run produced), and the markdown and JSON
artifact contents are independent of the prior filesystem state, hence a
pure function of the two inputs. -/
theorem claim3 {t : String} {d : PyDict} (h : dictGet SUBAGENT_TEMPLATES t = some d)
    (fs fs2 : FS) (name out : String) :
    create_subagent (create_subagent fs name t out).2 name t out =
      create_subagent fs name t out ∧
    fileGet (create_subagent fs name t out).2 (mdPathOf name out) =
      fileGet (create_subagent fs2 name t out).2 (mdPathOf name out) ∧
    fileGet (create_subagent fs name t out).2 (jsonPathOf name out) =
      fileGet (create_subagent fs2 name t out).2 (jsonPathOf name out) := by
  have esnd : (create_subagent fs name t out).2 =
      writeText (writeText (mkdirParents (mkdirParents fs out) (agentsDirOf out))
          (mdPathOf name out) (FileContent.text (mdOfTemplate name d)))
        (jsonPathOf name out)
        (FileContent.jsonData (pyDictSet d "name" (PyVal.str name))) := by
    rw [create_subagent_eq h]
  refine ⟨?_, ?_, ?_⟩
  · rw [esnd, create_subagent_eq h, create_subagent_eq h]
    exact congrArg (Prod.mk (Except.ok ()))
      (fs_idem_core (mkdirParents (mkdirParents fs out) (agentsDirOf out)) out
        (mdPathOf name out) (jsonPathOf name out)
        (FileContent.text (mdOfTemplate name d))
        (FileContent.jsonData (pyDictSet d "name" (PyVal.str name)))
        (fun q hq => mem_addDirs_left _ (mem_addDirs_right _ hq))
        (fun q hq => mem_addDirs_right _ hq))
  · rw [create_subagent_eq h fs name out, create_subagent_eq h fs2 name out]
    simp [fileGet_writeText]
  · rw [create_subagent_eq h fs name out, create_subagent_eq h fs2 name out]
    simp [fileGet_writeText]

/-- Witness for C3 at agent "doc-searcher" of type "researcher", from two
different starting filesystems. -/
theorem claim3_witness :
    create_subagent (create_subagent fsEmpty "doc-searcher" "researcher" ".").2
        "doc-searcher" "researcher" "." =
      create_subagent fsEmpty "doc-searcher" "researcher" "." ∧
    fileGet (create_subagent fsEmpty "doc-searcher" "researcher" ".").2
        (mdPathOf "doc-searcher" ".") =
      fileGet (create_subagent (FS.mk ["other"] []) "doc-searcher" "researcher" ".").2
        (mdPathOf "doc-searcher" ".") ∧
    fileGet (create_subagent fsEmpty "doc-searcher" "researcher" ".").2
        (jsonPathOf "doc-searcher" ".") =
      fileGet (create_subagent (FS.mk ["other"] []) "doc-searcher" "researcher" ".").2
        (jsonPathOf "doc-searcher" ".") :=
  claim3 (show dictGet SUBAGENT_TEMPLATES "researcher" = some researcherT from rfl)
    fsEmpty (FS.mk ["other"] []) "doc-searcher" "."

/-- C4: every valid type key of the subagent registry resolves to a record
whose `tools` field is a non-empty list of strings and whose `autonomy`
value is a key of `AUTONOMY_DESCRIPTIONS`, so rendering the autonomy
description never fails. -/
theorem claim4 {t : String} {d : PyDict} (h : dictGet SUBAGENT_TEMPLATES t = some d) :
    dictGet d "tools" = some (PyVal.list ((strListOf (dictGet d "tools")).map PyVal.str)) ∧
    strListOf (dictGet d "tools") ≠ [] ∧
    dictGet d "autonomy" = some (PyVal.str (strOf (dictGet d "autonomy"))) ∧
    (dictGet AUTONOMY_DESCRIPTIONS (strOf (dictGet d "autonomy"))).isSome = true := by
  rcases subagent_lookup_cases h with ⟨ht, hd⟩ | ⟨ht, hd⟩ | ⟨ht, hd⟩ | ⟨ht, hd⟩ | ⟨ht, hd⟩ <;>
    subst hd <;> exact ⟨rfl, by simp [strListOf, dictGet], rfl, rfl⟩

/-- Witness for C4 at type "researcher". -/
theorem claim4_witness :
    dictGet researcherT "tools" =
      some (PyVal.list ((strListOf (dictGet researcherT "tools")).map PyVal.str)) ∧
    strListOf (dictGet researcherT "tools") ≠ [] ∧
    dictGet researcherT "autonomy" =
      some (PyVal.str (strOf (dictGet researcherT "autonomy"))) ∧
    (dictGet AUTONOMY_DESCRIPTIONS (strOf (dictGet researcherT "autonomy"))).isSome = true :=
  claim4 (show dictGet SUBAGENT_TEMPLATES "researcher" = some researcherT from rfl)

/-- C5: the JSON artifact is the selected registry record with the `name`
field overridden in place to the supplied agent name: field order is
name, description, instructions, tools, autonomy, the name field holds
the agent name, and every other field is unchanged from the record. -/
theorem claim5 {t : String} {d : PyDict} (h : dictGet SUBAGENT_TEMPLATES t = some d)
    (fs : FS) (name out : String) :
    fileGet (create_subagent fs name t out).2 (jsonPathOf name out) =
      some (FileContent.jsonData (pyDictSet d "name" (PyVal.str name))) ∧
    dictKeys (pyDictSet d "name" (PyVal.str name)) =
      ["name", "description", "instructions", "tools", "autonomy"] ∧
    dictGet (pyDictSet d "name" (PyVal.str name)) "name" = some (PyVal.str name) ∧
    ∀ k, k ≠ "name" →
      dictGet (pyDictSet d "name" (PyVal.str name)) k = dictGet d k := by
  refine ⟨?_, ?_, dictGet_pyDictSet_self d "name" (PyVal.str name),
    fun k hk => dictGet_pyDictSet_ne d (PyVal.str name) hk⟩
  · rw [create_subagent_eq h]
    simp [fileGet_writeText]
  · rcases subagent_lookup_cases h with ⟨ht, hd⟩ | ⟨ht, hd⟩ | ⟨ht, hd⟩ | ⟨ht, hd⟩ | ⟨ht, hd⟩ <;>
      subst hd <;> rfl

/-- Witness for C5 at agent "doc-searcher" of type "researcher". -/
theorem claim5_witness :
    fileGet (create_subagent fsEmpty "doc-searcher" "researcher" ".").2
        (jsonPathOf "doc-searcher" ".") =
      some (FileContent.jsonData (pyDictSet researcherT "name" (PyVal.str "doc-searcher"))) ∧
    dictKeys (pyDictSet researcherT "name" (PyVal.str "doc-searcher")) =
      ["name", "description", "instructions", "tools", "autonomy"] ∧
    dictGet (pyDictSet researcherT "name" (PyVal.str "doc-searcher")) "name" =
      some (PyVal.str "doc-searcher") ∧
    dictGet (pyDictSet researcherT "name" (PyVal.str "doc-searcher")) "description" =
      dictGet researcherT "description" :=
  have c := claim5 (show dictGet SUBAGENT_TEMPLATES "researcher" = some researcherT from rfl)
    fsEmpty "doc-searcher" "."
  ⟨c.1, c.2.1, c.2.2.1, c.2.2.2 "description" (by decide)⟩

set_option maxRecDepth 40000 in
/-- C6: running the agent generator with agent name "doc-searcher", type
researcher and default output "." succeeds, creates
./.claude/agents/doc-searcher.md containing the literal string "Research
and documentation lookup agent with deep analysis", and creates
./.claude/agents/doc-searcher.json whose autonomy field is "medium". -/
theorem claim6 :
    (create_subagent fsEmpty "doc-searcher" "researcher" ".").1 = Except.ok () ∧
    fileGet (create_subagent fsEmpty "doc-searcher" "researcher" ".").2
        "./.claude/agents/doc-searcher.md" =
      some (FileContent.text (mdOfTemplate "doc-searcher" researcherT)) ∧
    strHasSub (mdOfTemplate "doc-searcher" researcherT)
      "Research and documentation lookup agent with deep analysis" = true ∧
    fileGet (create_subagent fsEmpty "doc-searcher" "researcher" ".").2
        "./.claude/agents/doc-searcher.json" =
      some (FileContent.jsonData (pyDictSet researcherT "name" (PyVal.str "doc-searcher"))) ∧
    dictGet (pyDictSet researcherT "name" (PyVal.str "doc-searcher")) "autonomy" =
      some (PyVal.str "medium") :=
  ⟨rfl, by rfl, by decide, by rfl, rfl⟩

/-- C7: for every valid project type, `generate_claude_md` writes the
selected template constant verbatim to the output path (creating the
parent directory first): the file content equals the template string
exactly, with no substitution applied. -/
theorem claim7 {t c : String} (h : dictGet TEMPLATES t = some c)
    (fs : FS) (out : String) :
    generate_claude_md fs t out =
      (Except.ok (), writeText (mkdirParents fs (parentDir out)) out (FileContent.text c)) ∧
    fileGet (generate_claude_md fs t out).2 out = some (FileContent.text c) := by
  have e : generate_claude_md fs t out =
      (Except.ok (), writeText (mkdirParents fs (parentDir out)) out (FileContent.text c)) := by
    unfold generate_claude_md
    rw [h]
  refine ⟨e, ?_⟩
  rw [e]
  simp [fileGet_writeText]

/-- Witness for C7 at type "library" and default output ./CLAUDE.md. -/
theorem claim7_witness :
    generate_claude_md fsEmpty "library" "./CLAUDE.md" =
      (Except.ok (), writeText (mkdirParents fsEmpty (parentDir "./CLAUDE.md"))
        "./CLAUDE.md" (FileContent.text libraryTemplate)) ∧
    fileGet (generate_claude_md fsEmpty "library" "./CLAUDE.md").2 "./CLAUDE.md" =
      some (FileContent.text libraryTemplate) :=
  claim7 (show dictGet TEMPLATES "library" = some libraryTemplate from rfl) fsEmpty "./CLAUDE.md"

/-- C8: with a valid type, either script creates every missing intermediate
directory of the output location (directories already present are kept and
raise no error, as the mkdir model is total) and then succeeds in writing
its output file or files. -/
theorem claim8 (fs : FS) (name t out p pout : String) :
    (∀ d : PyDict, dictGet SUBAGENT_TEMPLATES t = some d →
      (∀ q ∈ fs.dirs, q ∈ (create_subagent fs name t out).2.dirs) ∧
      (∀ q ∈ dirPrefixes (agentsDirOf out), q ∈ (create_subagent fs name t out).2.dirs) ∧
      (fileGet (create_subagent fs name t out).2 (mdPathOf name out)).isSome = true ∧
      (fileGet (create_subagent fs name t out).2 (jsonPathOf name out)).isSome = true) ∧
    (∀ c : String, dictGet TEMPLATES p = some c →
      (∀ q ∈ fs.dirs, q ∈ (generate_claude_md fs p pout).2.dirs) ∧
      (∀ q ∈ dirPrefixes (parentDir pout), q ∈ (generate_claude_md fs p pout).2.dirs) ∧
      (fileGet (generate_claude_md fs p pout).2 pout).isSome = true) := by
  constructor
  · intro d h
    have esnd : (create_subagent fs name t out).2 =
        writeText (writeText (mkdirParents (mkdirParents fs out) (agentsDirOf out))
            (mdPathOf name out) (FileContent.text (mdOfTemplate name d)))
          (jsonPathOf name out)
          (FileContent.jsonData (pyDictSet d "name" (PyVal.str name))) := by
      rw [create_subagent_eq h]
    rw [esnd]
    refine ⟨fun q hq => mem_addDirs_left _ (mem_addDirs_left _ hq),
      fun q hq => mem_addDirs_right _ hq, ?_, ?_⟩
    · simp only [fileGet_writeText]
      split <;> rfl
    · simp [fileGet_writeText]
  · intro c h
    have e : generate_claude_md fs p pout =
        (Except.ok (), writeText (mkdirParents fs (parentDir pout)) pout
          (FileContent.text c)) := by
      unfold generate_claude_md
      rw [h]
    rw [e]
    refine ⟨fun q hq => mem_addDirs_left _ hq, fun q hq => mem_addDirs_right _ hq, ?_⟩
    simp [fileGet_writeText]

/-- Witness for C8 against nested output directories that do not exist. -/
theorem claim8_witness :
    "deeply/nested/out/.claude/agents" ∈
      (create_subagent fsEmpty "doc-searcher" "researcher" "deeply/nested/out").2.dirs ∧
    (fileGet (create_subagent fsEmpty "doc-searcher" "researcher" "deeply/nested/out").2
      (mdPathOf "doc-searcher" "deeply/nested/out")).isSome = true ∧
    (fileGet (generate_claude_md fsEmpty "library" "some/new/dir/CLAUDE.md").2
      "some/new/dir/CLAUDE.md").isSome = true :=
  have c := claim8 fsEmpty "doc-searcher" "researcher" "deeply/nested/out" "library"
    "some/new/dir/CLAUDE.md"
  ⟨(c.1 researcherT rfl).2.1 "deeply/nested/out/.claude/agents" (by decide),
   (c.1 researcherT rfl).2.2.1, (c.2 libraryTemplate rfl).2.2⟩

/-- C9: the registry is unchanged by `create_subagent`: over the object
heap the name override is applied to a freshly allocated copy, so every
record reachable from the registry is identical before and after. -/
theorem claim9 (s : Store) (registry : List (String × Nat)) (name t : String) :
    ∀ k r, (k, r) ∈ registry → r < s.cells.length →
      storeGet (create_subagent_refs s registry name t).1 r = storeGet s r :=
  fun _ r _ hr => storeGet_create_subagent_refs s registry name t hr

/-- Witness for C9 on a concrete heap holding the five registry records. -/
theorem claim9_witness :
    storeGet (create_subagent_refs store0 registry0 "doc-searcher" "researcher").1 0 =
      storeGet store0 0 :=
  claim9 store0 registry0 "doc-searcher" "researcher" "researcher" 0
    (by simp [registry0]) (by simp [store0])

set_option maxRecDepth 10000 in
/-- C10: rendering through the fixed `CLAUDE_CODE_FORMAT` succeeds for
every agent name (and every other substitution value), including names
containing brace characters, and the values are inserted literally: they
are never re-interpreted as placeholders. -/
theorem claim10 (name desc instr tls adesc : String) :
    pyFormat CLAUDE_CODE_FORMAT
      [("agent_name", name), ("description", desc), ("instructions", instr),
       ("tools", tls), ("autonomy_description", adesc)] =
    Except.ok (mdContentOf name desc instr tls adesc) := rfl
